import Mathlib

/-!
# Pizza-orders real-time broadcast core: a shallow embedding

This file models the WebSocket fan-out core of the pizza order tracker:
the order data model (`src/server/src/types/Order.ts`,
`src/server/src/models` / part_002), the broadcast functions of
`SocketServer` (part_003) and `SocketEvents` (`socket.auth.ts`, second
section), the `WebSocketService` wrapper (part_010), the REST controller's
broadcast blocks (`Order.controller.ts`), the connection gatekeeper
(`SocketAuth` in `socket.auth.ts`), and the status-update path of
`OrderService` / `OrderRepository`.

Each emitting function is translated to a pure function returning the list
of messages it emits, in emission order.  A message records its target
(all connections, one named room, or the requesting socket), its event
name, and its payload; payload fields that a given JS object literal does
not mention are `none`, mirroring the duck-typed payload objects of the
source.  Database and wall-clock effects are passed explicitly: the
`OrderService` outcome of an inbound request is a parameter, and the
ISO-8601 timestamp string captured by `new Date().toISOString()` at
broadcast time is the `now` parameter.
-/

/-- Order status enum (`src/server/src/types/Order.ts`). -/
inductive OrderStatus
  | received
  | preparing
  | ready
  | enRoute
  | delivered
deriving DecidableEq, Repr

/-- The enum's wire string (`OrderStatus` values in `types/Order.ts`). -/
def OrderStatus.toWire : OrderStatus → String
  | .received => "Received"
  | .preparing => "Preparing"
  | .ready => "Ready"
  | .enRoute => "En-Route"
  | .delivered => "Delivered"

/-- A sub-item row (`types/SubItem.ts` / `sub_items` table). -/
structure SubItem where
  title : String
  amount : Int
  type : String
deriving DecidableEq, Repr

/-- An order row (`types/Order.ts` / `orders` table).  `latitude` and
`longitude` are the DECIMAL columns, modelled as rationals. -/
structure Order where
  id : String
  title : String
  latitude : Rat
  longitude : Rat
  status : OrderStatus
  subItems : List SubItem
deriving DecidableEq, Repr

/-- Embeds `appConfig.websocket.rooms.orderUpdates` (part_005 line 449). -/
def appConfig.rooms.orderUpdates : String := "order-updates"

/-- Embeds `appConfig.websocket.rooms.adminUpdates` (part_005 line 451). -/
def appConfig.rooms.adminUpdates : String := "admin-updates"

/-- Embeds `appConfig.websocket.events.orderCreated` (part_005 line 454). -/
def appConfig.events.orderCreated : String := "order:created"

/-- Embeds `appConfig.websocket.events.orderUpdated` (part_005 line 455). -/
def appConfig.events.orderUpdated : String := "order:updated"

/-- Embeds `appConfig.websocket.events.orderStatusChanged` (part_005 line 456). -/
def appConfig.events.orderStatusChanged : String := "order:status-changed"

/-- Embeds `appConfig.websocket.events.orderDeleted` (part_005 line 457). -/
def appConfig.events.orderDeleted : String := "order:deleted"

/-- The per-status room name, `` `status-${status}` `` throughout part_003
and `socket.rooms.ts`. -/
def statusRoom (s : OrderStatus) : String := "status-" ++ s.toWire

/-- The order statistics record (`OrderRepository.getStatistics`). -/
structure OrderStatistics where
  totalOrders : Int
  activeOrders : Int
  deliveredOrders : Int
  averageOrderTime : Int
deriving DecidableEq, Repr

/-- The `data` value of an outbound payload: a serialized order, a bare
`{ id }` reference (deletion), or a statistics record. -/
inductive WireData
  | order (o : Order)
  | idRef (id : String)
  | stats (s : OrderStatistics)
deriving DecidableEq, Repr

/-- An outbound payload object.  A field is `some _` exactly when the JS
object literal being modelled mentions the corresponding key; every
literal in the emitting code carries `timestamp`, so that field is plain.
-/
structure Payload where
  success : Option Bool := none
  data : Option WireData := none
  oldStatus : Option OrderStatus := none
  message : Option String := none
  type : Option String := none
  error : Option String := none
  timestamp : String
deriving DecidableEq, Repr

/-- The audience of one emit: `io.emit` (all connections),
`io.to(room).emit` (a named room), or `socket.emit` (the requesting
socket only). -/
inductive Target
  | all
  | room (name : String)
  | sender
deriving DecidableEq, Repr

/-- One emitted message. -/
structure Emit where
  target : Target
  event : String
  payload : Payload
deriving DecidableEq, Repr

/-- Outcome of an awaited `OrderService` call as the handlers see it:
resolved with a value, resolved with `null`, or rejected. -/
inductive ServiceResult (α : Type)
  | ok (value : α)
  | notFound
  | failed (message : String)
deriving DecidableEq, Repr

/-! ## SocketServer broadcast methods (part_003, class `SocketServer`) -/

/-- Embeds `SocketServer.broadcastOrderCreated` (part_003 lines 412-425): the
global `order:created`, then `new-order` to the room of the order's
status. -/
def SocketServer.broadcastOrderCreated (order : Order) (now : String) : List Emit :=
  [ ⟨.all, appConfig.events.orderCreated,
      { success := some true, data := some (.order order), timestamp := now }⟩,
    ⟨.room (statusRoom order.status), "new-order",
      { success := some true, data := some (.order order), timestamp := now }⟩ ]

/-- Embeds `SocketServer.broadcastOrderUpdated` (part_003 lines 430-436): only
the global `order:updated`. -/
def SocketServer.broadcastOrderUpdated (order : Order) (now : String) : List Emit :=
  [ ⟨.all, appConfig.events.orderUpdated,
      { success := some true, data := some (.order order), timestamp := now }⟩ ]

/-- Embeds `SocketServer.broadcastOrderStatusChanged` (part_003 lines 441-461):
the global `order:status-changed` carrying `oldStatus`, then
`order-left-status` to the old status room, then `order-joined-status`
to the room of the order's (new) status. -/
def SocketServer.broadcastOrderStatusChanged (order : Order) (oldStatus : OrderStatus)
    (now : String) : List Emit :=
  [ ⟨.all, appConfig.events.orderStatusChanged,
      { success := some true, data := some (.order order), oldStatus := some oldStatus,
        timestamp := now }⟩,
    ⟨.room (statusRoom oldStatus), "order-left-status",
      { success := some true, data := some (.order order), timestamp := now }⟩,
    ⟨.room (statusRoom order.status), "order-joined-status",
      { success := some true, data := some (.order order), timestamp := now }⟩ ]

/-- Embeds `SocketServer.broadcastOrderDeleted` (part_003 lines 466-472): only
the global `order:deleted` with a bare `{ id }` payload. -/
def SocketServer.broadcastOrderDeleted (orderId : String) (now : String) : List Emit :=
  [ ⟨.all, appConfig.events.orderDeleted,
      { success := some true, data := some (.idRef orderId), timestamp := now }⟩ ]

/-- The `update-order-status` listener registered by
`SocketServer.handleOrderEvents` (part_003 lines 321-359), as a function
of the requested status and the `OrderService.updateOrderStatus` outcome:
on success it emits the global `order:status-changed` (with no
`oldStatus` key), `status-update` to the room of the requested (new)
status, and `status-update-success` to the requester; otherwise an error
reply to the requester. -/
def SocketServer.onUpdateOrderStatus (reqStatus : OrderStatus)
    (result : ServiceResult Order) (now : String) : List Emit :=
  match result with
  | .ok order =>
      [ ⟨.all, appConfig.events.orderStatusChanged,
          { success := some true, data := some (.order order), timestamp := now }⟩,
        ⟨.room (statusRoom reqStatus), "status-update",
          { success := some true, data := some (.order order), timestamp := now }⟩,
        ⟨.sender, "status-update-success",
          { success := some true, message := some "Order status updated successfully",
            timestamp := now }⟩ ]
  | .notFound =>
      [ ⟨.sender, "status-update-error",
          { success := some false, error := some "Order not found", timestamp := now }⟩ ]
  | .failed m =>
      [ ⟨.sender, "status-update-error",
          { success := some false, error := some m, timestamp := now }⟩ ]

/-- The `broadcast-message` listener registered by
`SocketServer.handleAdminEvents` (part_003 lines 391-397): `io.emit` of
`admin-message` to ALL connections, with a `{ message, type, timestamp }`
payload. -/
def SocketServer.onBroadcastMessage (message msgType now : String) : List Emit :=
  [ ⟨.all, "admin-message",
      { message := some message, type := some msgType, timestamp := now }⟩ ]

/-! ## SocketEvents broadcast methods (socket.auth.ts, class `SocketEvents`) -/

/-- Embeds `SocketEvents.handleOrderCreated` (socket.auth.ts lines 187-214):
global `order:created`, `new-order` to the order-updates room,
`order-joined-status` to the room of the order's status. -/
def SocketEvents.handleOrderCreated (order : Order) (now : String) : List Emit :=
  [ ⟨.all, "order:created",
      { success := some true, data := some (.order order), timestamp := now }⟩,
    ⟨.room appConfig.rooms.orderUpdates, "new-order",
      { success := some true, data := some (.order order), timestamp := now }⟩,
    ⟨.room (statusRoom order.status), "order-joined-status",
      { success := some true, data := some (.order order), timestamp := now }⟩ ]

/-- Embeds `SocketEvents.handleOrderUpdated` (socket.auth.ts lines 219-239):
global `order:updated`, then `order-updated` to the order-updates room. -/
def SocketEvents.handleOrderUpdated (order : Order) (now : String) : List Emit :=
  [ ⟨.all, "order:updated",
      { success := some true, data := some (.order order), timestamp := now }⟩,
    ⟨.room appConfig.rooms.orderUpdates, "order-updated",
      { success := some true, data := some (.order order), timestamp := now }⟩ ]

/-- Embeds `SocketEvents.handleOrderStatusChanged` (socket.auth.ts lines
244-272): global `order:status-changed` carrying `oldStatus`, then
`order-left-status` to the old status room, then `order-joined-status`
to the room of the order's (new) status. -/
def SocketEvents.handleOrderStatusChanged (order : Order) (oldStatus : OrderStatus)
    (now : String) : List Emit :=
  [ ⟨.all, "order:status-changed",
      { success := some true, data := some (.order order), oldStatus := some oldStatus,
        timestamp := now }⟩,
    ⟨.room (statusRoom oldStatus), "order-left-status",
      { success := some true, data := some (.order order), timestamp := now }⟩,
    ⟨.room (statusRoom order.status), "order-joined-status",
      { success := some true, data := some (.order order), timestamp := now }⟩ ]

/-- Embeds `SocketEvents.handleOrderDeleted` (socket.auth.ts lines 277-297):
global `order:deleted`, then `order-deleted` to the order-updates room,
both with a bare `{ id }` payload. -/
def SocketEvents.handleOrderDeleted (orderId : String) (now : String) : List Emit :=
  [ ⟨.all, "order:deleted",
      { success := some true, data := some (.idRef orderId), timestamp := now }⟩,
    ⟨.room appConfig.rooms.orderUpdates, "order-deleted",
      { success := some true, data := some (.idRef orderId), timestamp := now }⟩ ]

/-- Embeds `SocketEvents.handleAdminBroadcast` (socket.auth.ts lines 302-315):
`admin-message` to the admin room, with a `{ message, type, timestamp }`
payload. -/
def SocketEvents.handleAdminBroadcast (message msgType now : String) : List Emit :=
  [ ⟨.room appConfig.rooms.adminUpdates, "admin-message",
      { message := some message, type := some msgType, timestamp := now }⟩ ]

/-- Embeds `SocketEvents.handleStatisticsUpdate` (socket.auth.ts lines 338-353),
with the statistics fetched from `OrderService` passed explicitly:
`statistics-update` to the admin room. -/
def SocketEvents.handleStatisticsUpdate (statistics : OrderStatistics)
    (now : String) : List Emit :=
  [ ⟨.room appConfig.rooms.adminUpdates, "statistics-update",
      { success := some true, data := some (.stats statistics), timestamp := now }⟩ ]

/-- Embeds `SocketEvents.handleClientStatusUpdate` (socket.auth.ts lines
414-441), as a function of the requested status and the
`OrderService.updateOrderStatus` outcome.  On success it invokes
`handleOrderStatusChanged(order, status)`, passing the REQUESTED (new)
status as the `oldStatus` argument, then replies to the requester. -/
def SocketEvents.handleClientStatusUpdate (reqStatus : OrderStatus)
    (result : ServiceResult Order) (now : String) : List Emit :=
  match result with
  | .ok order =>
      SocketEvents.handleOrderStatusChanged order reqStatus now ++
        [ ⟨.sender, "status-update-success",
            { success := some true, message := some "Order status updated successfully",
              timestamp := now }⟩ ]
  | .notFound =>
      [ ⟨.sender, "status-update-error",
          { success := some false, error := some "Order not found", timestamp := now }⟩ ]
  | .failed m =>
      [ ⟨.sender, "status-update-error",
          { success := some false, error := some m, timestamp := now }⟩ ]

/-! ## WebSocketService (part_010) and the REST controller broadcast
blocks (`Order.controller.ts`) -/

/-- Static members declared by `class WebSocketService` (part_010 lines
8-169): there are none — `initialize`, the `broadcast*` methods and
`getConnectedClientsCount` are all instance members, and the module
exports the instance `webSocketService` separately.  In particular no
`getInstance` static exists. -/
def WebSocketService.staticMembers : List String := []

/-- Instance members of `class WebSocketService` (part_010). -/
def WebSocketService.instanceMembers : List String :=
  [ "initialize", "broadcastOrderCreated", "broadcastOrderUpdated",
    "broadcastOrderStatusChanged", "broadcastOrderDeleted",
    "getConnectedClientsCount", "broadcastSystemNotification",
    "broadcastAdminMessage", "broadcastStatisticsUpdate" ]

/-- Embeds `WebSocketService.broadcastOrderCreated` (part_010): warns and emits
nothing when the socket server is not initialized, otherwise delegates
to `SocketServer.broadcastOrderCreated`. -/
def WebSocketService.broadcastOrderCreated (initialized : Bool) (order : Order)
    (now : String) : List Emit :=
  if initialized then SocketServer.broadcastOrderCreated order now else []

/-- Embeds `WebSocketService.broadcastOrderUpdated` (part_010): delegates to
`SocketServer.broadcastOrderUpdated` when initialized. -/
def WebSocketService.broadcastOrderUpdated (initialized : Bool) (order : Order)
    (now : String) : List Emit :=
  if initialized then SocketServer.broadcastOrderUpdated order now else []

/-- Embeds `WebSocketService.broadcastOrderStatusChanged` (part_010): delegates
to `SocketServer.broadcastOrderStatusChanged` when initialized. -/
def WebSocketService.broadcastOrderStatusChanged (initialized : Bool) (order : Order)
    (oldStatus : OrderStatus) (now : String) : List Emit :=
  if initialized then SocketServer.broadcastOrderStatusChanged order oldStatus now else []

/-- Embeds `WebSocketService.broadcastOrderDeleted` (part_010): delegates to
`SocketServer.broadcastOrderDeleted` when initialized. -/
def WebSocketService.broadcastOrderDeleted (initialized : Bool) (orderId : String)
    (now : String) : List Emit :=
  if initialized then SocketServer.broadcastOrderDeleted orderId now else []

/-- Embeds `WebSocketService.broadcastAdminMessage` (part_010 lines 123-140):
`admin-message` to the `admin-updates` room with `{ message, type,
timestamp }`. -/
def WebSocketService.broadcastAdminMessage (initialized : Bool)
    (message msgType now : String) : List Emit :=
  if initialized then
    [ ⟨.room "admin-updates", "admin-message",
        { message := some message, type := some msgType, timestamp := now }⟩ ]
  else []

/-- Embeds `WebSocketService.broadcastStatisticsUpdate` (part_010 lines
145-165): `statistics-update` to the `admin-updates` room. -/
def WebSocketService.broadcastStatisticsUpdate (initialized : Bool)
    (statistics : OrderStatistics) (now : String) : List Emit :=
  if initialized then
    [ ⟨.room "admin-updates", "statistics-update",
        { success := some true, data := some (.stats statistics), timestamp := now }⟩ ]
  else []

/-- The `try { WebSocketService.getInstance() ... } catch` block shared by
the REST mutation handlers (`Order.controller.ts` lines 128-136, 169-177,
218-230, 262-270).  Resolving the static member `getInstance` fails (the
class declares no such static), the resulting TypeError is caught and
swallowed, so nothing of the intended broadcast is emitted. -/
def OrderController.wsBroadcastBlock (intended : List Emit) : List Emit :=
  if WebSocketService.staticMembers.contains "getInstance" then intended else []

/-- A REST handler's outcome: HTTP status, the body's `success` flag and
the WebSocket messages emitted while handling the request. -/
structure RestResponse where
  status : Nat
  success : Bool
  emitted : List Emit
deriving DecidableEq, Repr

/-- Embeds `OrderController.createOrder` after a successful service call
(`Order.controller.ts` lines 126-145): broadcast block, then a 201
response with `success: true`. -/
def OrderController.createOrderResponse (order : Order) (now : String) : RestResponse :=
  ⟨201, true,
    OrderController.wsBroadcastBlock (WebSocketService.broadcastOrderCreated true order now)⟩

/-- Embeds `OrderController.updateOrder` after a successful service call
(`Order.controller.ts` lines 163-186). -/
def OrderController.updateOrderResponse (order : Order) (now : String) : RestResponse :=
  ⟨200, true,
    OrderController.wsBroadcastBlock (WebSocketService.broadcastOrderUpdated true order now)⟩

/-- Embeds `OrderController.updateOrderStatus` after a successful service call
(`Order.controller.ts` lines 208-239): with a known old status the
intended broadcast is the status-changed one, otherwise the plain
updated one; either way the block swallows. -/
def OrderController.updateOrderStatusResponse (order : Order)
    (oldStatus : Option OrderStatus) (now : String) : RestResponse :=
  ⟨200, true,
    OrderController.wsBroadcastBlock
      (match oldStatus with
       | some a => WebSocketService.broadcastOrderStatusChanged true order a now
       | none => WebSocketService.broadcastOrderUpdated true order now)⟩

/-- Embeds `OrderController.deleteOrder` after a successful service call
(`Order.controller.ts` lines 256-278). -/
def OrderController.deleteOrderResponse (orderId : String) (now : String) : RestResponse :=
  ⟨200, true,
    OrderController.wsBroadcastBlock (WebSocketService.broadcastOrderDeleted true orderId now)⟩

/-! ## Connection gatekeeper (`SocketAuth`, socket.auth.ts lines 15-166) -/

/-- A connection role (`socket.user.role`). -/
inductive Role
  | admin
  | user
  | guest
deriving DecidableEq, Repr

/-- The `socket.user` record assigned by `SocketAuth.authenticate`. -/
structure AuthUser where
  id : String
  role : Role
  permissions : List String
deriving DecidableEq, Repr

/-- The guest record assigned on every fallback path of `authenticate`. -/
def guestUser : AuthUser := ⟨"guest", .guest, ["read"]⟩

/-- The record `verifyToken` returns for the sentinel `admin-token`. -/
def adminUser : AuthUser := ⟨"admin-1", .admin, ["read", "write", "admin"]⟩

/-- The record `verifyToken` returns for the sentinel `user-token`. -/
def normalUser : AuthUser := ⟨"user-1", .user, ["read", "write"]⟩

/-- The handshake data `extractToken` reads: the `token` query parameter,
the `authorization` header and the `cookie` header, each possibly
absent. -/
structure Handshake where
  queryToken : Option String
  authHeader : Option String
  cookieHeader : Option String
deriving DecidableEq, Repr

/-- JS truthiness of a string that may be null/undefined: the empty
string and absence are both falsy. -/
def truthyStr : Option String → Option String
  | some t => if t = "" then none else some t
  | none => none

/-- Embeds `SocketAuth.parseCookie` (socket.auth.ts lines 124-133): split on
`;`, trim each cookie, split on `=`, and on the first key match return
`value || null`. -/
def SocketAuth.parseCookie (cookieString name : String) : Option String :=
  match (cookieString.splitOn ";").find?
      (fun c => (c.trim.splitOn "=").headD "" == name) with
  | some c => truthyStr ((c.trim.splitOn "=").get? 1)
  | none => none

/-- The cookie arm of `SocketAuth.extractToken` (socket.auth.ts lines
78-85): if the cookie header is truthy and `parseCookie` finds a truthy
`token` cookie, return it. -/
def SocketAuth.extractFromCookie (s : Handshake) : Option String :=
  match truthyStr s.cookieHeader with
  | some cookies => SocketAuth.parseCookie cookies "token"
  | none => none

/-- Embeds `SocketAuth.extractToken` (socket.auth.ts lines 65-88): the `token`
query parameter if truthy, else the `Bearer `-prefixed authorization
header's remainder, else the `token` cookie, else null. -/
def SocketAuth.extractToken (s : Handshake) : Option String :=
  match truthyStr s.queryToken with
  | some t => some t
  | none =>
      match s.authHeader with
      | some h =>
          if h.startsWith "Bearer " then some (h.drop 7)
          else SocketAuth.extractFromCookie s
      | none => SocketAuth.extractFromCookie s

/-- Embeds `SocketAuth.verifyToken` (socket.auth.ts lines 93-119): exactly the
sentinel `admin-token` and `user-token` are recognized. -/
def SocketAuth.verifyToken (token : String) : Option AuthUser :=
  if token = "admin-token" then some adminUser
  else if token = "user-token" then some normalUser
  else none

/-- Outcome of a JS step: a value, or a thrown exception. -/
inductive JsOutcome (α : Type)
  | value (a : α)
  | thrown (e : String)
deriving DecidableEq, Repr

/-- The body of `authenticate`'s `try` block (socket.auth.ts lines
20-49), with the extraction and verification steps abstracted so the
surrounding catch can be stated over ANY behaviour of those steps,
including a throw: missing token → guest; recognized token → its user;
unrecognized token → guest; a throw propagates. -/
def SocketAuth.tryBody (ext : JsOutcome (Option String))
    (ver : String → JsOutcome (Option AuthUser)) : JsOutcome AuthUser :=
  match ext with
  | .thrown e => .thrown e
  | .value tok =>
      match truthyStr tok with
      | none => .value guestUser
      | some t =>
          match ver t with
          | .thrown e => .thrown e
          | .value (some u) => .value u
          | .value none => .value guestUser

/-- Embeds `SocketAuth.authenticate` (socket.auth.ts lines 19-60) over abstract
extraction/verification steps.  Returns the user assigned to the socket
and whether `next()` was called with no error; the catch block (lines
50-59) turns any throw into the guest assignment and still calls
`next()`. -/
def SocketAuth.authenticateWith (ext : JsOutcome (Option String))
    (ver : String → JsOutcome (Option AuthUser)) : AuthUser × Bool :=
  match SocketAuth.tryBody ext ver with
  | .value u => (u, true)
  | .thrown _ => (guestUser, true)

/-- Embeds `SocketAuth.authenticate` on a handshake, with the source's concrete
`extractToken` and `verifyToken` (both of which are pure and never
throw). -/
def SocketAuth.authenticate (s : Handshake) : AuthUser × Bool :=
  SocketAuth.authenticateWith (.value (SocketAuth.extractToken s))
    (fun t => .value (SocketAuth.verifyToken t))

/-! ## Order entity, repository and service (Order.entity.ts in
part_002, `Order.repository.ts`, `Order.service.ts`) -/

/-- Embeds `Order.canBeUpdated` (part_002 lines 129-131): true unless the order
is Delivered. -/
def Order.canBeUpdated (o : Order) : Bool :=
  decide (o.status ≠ OrderStatus.delivered)

/-- Embeds `Order.updateStatus` (part_002 lines 134-140): sets the status when
the order can be updated, otherwise throws. -/
def Order.updateStatus (o : Order) (newStatus : OrderStatus) : Except String Order :=
  if o.canBeUpdated then
    .ok ⟨o.id, o.title, o.latitude, o.longitude, newStatus, o.subItems⟩
  else
    .error "Cannot update status of delivered order"

/-- The static factory `Order.create` (part_002 lines 151-174):
`status: data.status || OrderStatus.RECEIVED`; the generated id is
passed explicitly. -/
def Order.createEntity (newId : String) (title : String) (latitude longitude : Rat)
    (status : Option OrderStatus) (subItems : List SubItem) : Order :=
  ⟨newId, title, latitude, longitude, status.getD OrderStatus.received, subItems⟩

/-- Embeds `OrderRepository.updateStatus` (`Order.repository.ts` lines 113-121)
over an explicit store: find the order by id (null when absent), call
the entity's `updateStatus` (which may throw), and save the result.
Returns the updated order together with the updated store. -/
def OrderRepository.updateStatus (store : List Order) (id : String)
    (status : OrderStatus) : Except String (Option (Order × List Order)) :=
  match store.find? (fun o => o.id == id) with
  | none => .ok none
  | some o =>
      match o.updateStatus status with
      | .ok updated =>
          .ok (some (updated, store.map (fun x => if x.id == id then updated else x)))
      | .error e => .error e

/-- Embeds `OrderService.updateOrderStatus` (`Order.service.ts` lines 57-59):
delegates to the repository. -/
def OrderService.updateOrderStatus (store : List Order) (id : String)
    (status : OrderStatus) : Except String (Option (Order × List Order)) :=
  OrderRepository.updateStatus store id status

/-- The raw body of `POST /api/orders` as `OrderService.createOrder`
receives it.  The typed `CreateOrderRequest` interface (`types/Order.ts`
lines 31-36) has only `title`, `latitude`, `longitude` and `subItems`;
the extra `status` field here models a status key a client may include
in the raw JSON body, which nothing on the creation path ever reads. -/
structure CreateOrderRequest where
  title : String
  latitude : Rat
  longitude : Rat
  subItems : List SubItem
  status : Option OrderStatus
deriving DecidableEq, Repr

/-- Embeds `OrderRepository.create` (`Order.repository.ts` lines 71-108):
builds the entity with `status: orderData.status || 'Received'` and
saves it (sub-items saved alongside). -/
def OrderRepository.create (newId : String) (title : String) (latitude longitude : Rat)
    (status : Option OrderStatus) (subItems : List SubItem) : Order :=
  Order.createEntity newId title latitude longitude
    (some (status.getD OrderStatus.received)) subItems

/-- Embeds `OrderService.createOrder` (`Order.service.ts` lines 41-52): always
passes `OrderStatus.RECEIVED` to the repository, never the request's
status. -/
def OrderService.createOrder (req : CreateOrderRequest) (newId : String) : Order :=
  OrderRepository.create newId req.title req.latitude req.longitude
    (some OrderStatus.received) req.subItems

/-! ## Sample data used by concrete instantiations -/

/-- A sample order in status Preparing (mirrors the seeded
`Pepperoni Pizza Order`). -/
def sampleOrder : Order := ⟨"order-1", "Pepperoni Pizza Order", 40, -74, .preparing, []⟩

/-- A sample order in status Delivered. -/
def deliveredOrder : Order := ⟨"order-2", "Margherita Pizza Order", 41, -73, .delivered, []⟩

/-! ## Emission-ordering predicate for status-change fan-outs -/

/-- In `msgs`, an `order-left-status` message to the room of `a` occurs,
an `order-joined-status` message to the room of `b` occurs, and every
occurrence of the former sits strictly earlier in the emission sequence
than every occurrence of the latter. -/
def leftPrecedesJoined (msgs : List Emit) (a b : OrderStatus) : Prop :=
  (∃ i p, msgs.get? i = some ⟨Target.room (statusRoom a), "order-left-status", p⟩) ∧
  (∃ j q, msgs.get? j = some ⟨Target.room (statusRoom b), "order-joined-status", q⟩) ∧
  ∀ i j p q,
    msgs.get? i = some ⟨Target.room (statusRoom a), "order-left-status", p⟩ →
    msgs.get? j = some ⟨Target.room (statusRoom b), "order-joined-status", q⟩ →
    i < j

/-! ## Helper Boolean observations on emission lists -/

/-- Every message in `msgs` carries `success: true` and some `data`. -/
def allCarrySuccessAndData (msgs : List Emit) : Bool :=
  msgs.all (fun e => (e.payload.success == some true) && e.payload.data.isSome)

/-- Every message in `msgs` carries neither a `success` nor a `data` key. -/
def allLackSuccessAndData (msgs : List Emit) : Bool :=
  msgs.all (fun e => e.payload.success.isNone && e.payload.data.isNone)

/-- The timestamps of the messages of `msgs`, in emission order. -/
def timestampsOf (msgs : List Emit) : List String :=
  msgs.map (fun e => e.payload.timestamp)

/-- C2 helper: the status-change fan-out of
`SocketServer.broadcastOrderStatusChanged`, characterised element by
element. -/
theorem broadcastOrderStatusChanged_ordering (o : Order) (a : OrderStatus) (now : String) :
    leftPrecedesJoined (SocketServer.broadcastOrderStatusChanged o a now) a o.status := by
  refine ⟨⟨1, { success := some true, data := some (.order o), timestamp := now }, rfl⟩,
          ⟨2, { success := some true, data := some (.order o), timestamp := now }, rfl⟩, ?_⟩
  intro i j p q hi hj
  rcases i with _ | _ | _ | i
  · simp [SocketServer.broadcastOrderStatusChanged] at hi
  · rcases j with _ | _ | _ | j
    · simp [SocketServer.broadcastOrderStatusChanged] at hj
    · simp [SocketServer.broadcastOrderStatusChanged] at hj
    · omega
    · simp [SocketServer.broadcastOrderStatusChanged] at hj
  · simp [SocketServer.broadcastOrderStatusChanged] at hi
  · simp [SocketServer.broadcastOrderStatusChanged] at hi

/-- C2 helper: the status-change fan-out of
`SocketEvents.handleOrderStatusChanged`, characterised element by
element. -/
theorem handleOrderStatusChanged_ordering (o : Order) (a : OrderStatus) (now : String) :
    leftPrecedesJoined (SocketEvents.handleOrderStatusChanged o a now) a o.status := by
  refine ⟨⟨1, { success := some true, data := some (.order o), timestamp := now }, rfl⟩,
          ⟨2, { success := some true, data := some (.order o), timestamp := now }, rfl⟩, ?_⟩
  intro i j p q hi hj
  rcases i with _ | _ | _ | i
  · simp [SocketEvents.handleOrderStatusChanged] at hi
  · rcases j with _ | _ | _ | j
    · simp [SocketEvents.handleOrderStatusChanged] at hj
    · simp [SocketEvents.handleOrderStatusChanged] at hj
    · omega
    · simp [SocketEvents.handleOrderStatusChanged] at hj
  · simp [SocketEvents.handleOrderStatusChanged] at hi
  · simp [SocketEvents.handleOrderStatusChanged] at hi

/-- C2: for every OrderStatusChanged broadcast with oldStatus `a` and new
status `o.status` (`a ≠ o.status`), both broadcaster implementations emit
the `order-left-status` message to the room of `a` strictly before the
`order-joined-status` message to the room of the new status. -/
theorem c2_left_before_joined (o : Order) (a : OrderStatus) (now : String)
    (_h : a ≠ o.status) :
    leftPrecedesJoined (SocketServer.broadcastOrderStatusChanged o a now) a o.status ∧
    leftPrecedesJoined (SocketEvents.handleOrderStatusChanged o a now) a o.status :=
  ⟨broadcastOrderStatusChanged_ordering o a now, handleOrderStatusChanged_ordering o a now⟩

/-- C2 witness: the ordering at a concrete Received → Preparing change. -/
theorem c2_left_before_joined_witness :
    leftPrecedesJoined
      (SocketServer.broadcastOrderStatusChanged sampleOrder OrderStatus.received
        "2026-10-11T00:00:00.000Z") OrderStatus.received sampleOrder.status ∧
    leftPrecedesJoined
      (SocketEvents.handleOrderStatusChanged sampleOrder OrderStatus.received
        "2026-10-11T00:00:00.000Z") OrderStatus.received sampleOrder.status :=
  c2_left_before_joined sampleOrder OrderStatus.received "2026-10-11T00:00:00.000Z"
    (by decide)

/-- C1 (amended): what a successful inbound `update-order-status` really
triggers.  The wired listener (`SocketServer.handleOrderEvents`) emits
the global `order:status-changed` without an `oldStatus` key, a
`status-update` to the room of the REQUESTED (new) status, and a success
reply to the requester — and, whatever the service outcome, never an
`order-left-status` or `order-joined-status` notice.  The unwired
`SocketEvents.handleClientStatusUpdate` does run the full fan-out, but
passes the requested new status as `oldStatus`, so its "left" notice
targets the new status room, not the old one. -/
theorem c1_update_status_fanout (reqStatus : OrderStatus) (o : Order) (now : String) :
    SocketServer.onUpdateOrderStatus reqStatus (ServiceResult.ok o) now =
      [ ⟨Target.all, appConfig.events.orderStatusChanged,
          { success := some true, data := some (.order o), timestamp := now }⟩,
        ⟨Target.room (statusRoom reqStatus), "status-update",
          { success := some true, data := some (.order o), timestamp := now }⟩,
        ⟨Target.sender, "status-update-success",
          { success := some true, message := some "Order status updated successfully",
            timestamp := now }⟩ ] ∧
    (∀ result : ServiceResult Order,
      (SocketServer.onUpdateOrderStatus reqStatus result now).all
        (fun e => !(e.event == "order-left-status") && !(e.event == "order-joined-status")) =
        true) ∧
    (SocketEvents.handleClientStatusUpdate reqStatus (ServiceResult.ok o) now).get? 1 =
      some ⟨Target.room (statusRoom reqStatus), "order-left-status",
        { success := some true, data := some (.order o), timestamp := now }⟩ := by
  refine ⟨rfl, ?_, rfl⟩
  intro result
  cases result <;> rfl

/-- C1 counterexample: concretely, a successful update to Preparing (of
an order previously in another status) produces no `order-left-status`
and no `order-joined-status` message at all from the wired handler, and
the unwired handler's "left" notice goes to the NEW status room
`status-Preparing`. -/
theorem c1_no_left_notice_counterexample :
    (SocketServer.onUpdateOrderStatus OrderStatus.preparing (ServiceResult.ok sampleOrder)
        "ts").all
      (fun e => !(e.event == "order-left-status") && !(e.event == "order-joined-status")) =
      true ∧
    (SocketServer.onUpdateOrderStatus OrderStatus.preparing (ServiceResult.ok sampleOrder)
        "ts").length = 3 ∧
    (SocketEvents.handleClientStatusUpdate OrderStatus.preparing (ServiceResult.ok sampleOrder)
        "ts").get? 1 =
      some ⟨Target.room (statusRoom OrderStatus.preparing), "order-left-status",
        { success := some true, data := some (.order sampleOrder), timestamp := "ts" }⟩ :=
  ⟨rfl, rfl, rfl⟩

/-- C3: `class WebSocketService` declares no static `getInstance`, so the
controllers' `WebSocketService.getInstance()` calls throw; each REST
mutation's surrounding catch swallows the error, the HTTP response still
reports success, and the REST-triggered path emits no WebSocket
message. -/
theorem c3_rest_broadcast_swallowed :
    WebSocketService.staticMembers.contains "getInstance" = false ∧
    (∀ intended, OrderController.wsBroadcastBlock intended = []) ∧
    (∀ o now, OrderController.createOrderResponse o now = ⟨201, true, []⟩) ∧
    (∀ o now, OrderController.updateOrderResponse o now = ⟨200, true, []⟩) ∧
    (∀ o oldStatus now,
      OrderController.updateOrderStatusResponse o oldStatus now = ⟨200, true, []⟩) ∧
    (∀ oid now, OrderController.deleteOrderResponse oid now = ⟨200, true, []⟩) := by
  refine ⟨rfl, fun _ => rfl, fun _ _ => rfl, fun _ _ => rfl, ?_, fun _ _ => rfl⟩
  intro o oldStatus now
  cases oldStatus <;> rfl

/-- C4 (amended): the order-lifecycle broadcasts carry `success: true`,
a `data` payload and the broadcast-time timestamp, and the
`order:status-changed` of the two dedicated status-change broadcasters
carries `oldStatus`; but every `admin-message` payload (the wired
`broadcast-message` listener, `SocketEvents.handleAdminBroadcast` and
`WebSocketService.broadcastAdminMessage`) carries only message, type and
timestamp — no success flag, no data — and the `order:status-changed`
emitted by the wired `update-order-status` listener carries no
`oldStatus`. -/
theorem c4_payload_field_shapes (o : Order) (a : OrderStatus) (oid m t now : String)
    (st : OrderStatistics) :
    allCarrySuccessAndData (SocketServer.broadcastOrderCreated o now) = true ∧
    timestampsOf (SocketServer.broadcastOrderCreated o now) = [now, now] ∧
    allCarrySuccessAndData (SocketServer.broadcastOrderUpdated o now) = true ∧
    timestampsOf (SocketServer.broadcastOrderUpdated o now) = [now] ∧
    allCarrySuccessAndData (SocketServer.broadcastOrderStatusChanged o a now) = true ∧
    timestampsOf (SocketServer.broadcastOrderStatusChanged o a now) = [now, now, now] ∧
    (SocketServer.broadcastOrderStatusChanged o a now).get? 0 =
      some ⟨Target.all, appConfig.events.orderStatusChanged,
        { success := some true, data := some (.order o), oldStatus := some a,
          timestamp := now }⟩ ∧
    allCarrySuccessAndData (SocketServer.broadcastOrderDeleted oid now) = true ∧
    timestampsOf (SocketServer.broadcastOrderDeleted oid now) = [now] ∧
    allCarrySuccessAndData (SocketEvents.handleOrderCreated o now) = true ∧
    allCarrySuccessAndData (SocketEvents.handleOrderUpdated o now) = true ∧
    allCarrySuccessAndData (SocketEvents.handleOrderStatusChanged o a now) = true ∧
    (SocketEvents.handleOrderStatusChanged o a now).get? 0 =
      some ⟨Target.all, "order:status-changed",
        { success := some true, data := some (.order o), oldStatus := some a,
          timestamp := now }⟩ ∧
    allCarrySuccessAndData (SocketEvents.handleOrderDeleted oid now) = true ∧
    allCarrySuccessAndData (SocketEvents.handleStatisticsUpdate st now) = true ∧
    allLackSuccessAndData (SocketServer.onBroadcastMessage m t now) = true ∧
    timestampsOf (SocketServer.onBroadcastMessage m t now) = [now] ∧
    allLackSuccessAndData (SocketEvents.handleAdminBroadcast m t now) = true ∧
    allLackSuccessAndData (WebSocketService.broadcastAdminMessage true m t now) = true ∧
    (SocketServer.onUpdateOrderStatus a (ServiceResult.ok o) now).all
      (fun e => e.payload.oldStatus.isNone) = true ∧
    timestampsOf (SocketServer.onUpdateOrderStatus a (ServiceResult.ok o) now) =
      [now, now, now] :=
  ⟨rfl, rfl, rfl, rfl, rfl, rfl, rfl, rfl, rfl, rfl, rfl, rfl, rfl, rfl, rfl, rfl, rfl,
   rfl, rfl, rfl, rfl⟩

/-- C4 counterexample: the `admin-message` emitted for a concrete
`broadcast-message` request carries neither a success flag nor a data
payload, and the wired handler's concrete `order:status-changed` carries
no `oldStatus` key. -/
theorem c4_admin_message_payload_counterexample :
    SocketServer.onBroadcastMessage "Kitchen closing soon" "warning" "ts" =
      [ ⟨Target.all, "admin-message",
          { message := some "Kitchen closing soon", type := some "warning",
            timestamp := "ts" }⟩ ] ∧
    allLackSuccessAndData (SocketServer.onBroadcastMessage "Kitchen closing soon" "warning"
      "ts") = true ∧
    (SocketServer.onUpdateOrderStatus OrderStatus.ready (ServiceResult.ok sampleOrder)
        "ts").all (fun e => e.payload.oldStatus.isNone) = true :=
  ⟨rfl, rfl, rfl⟩

/-- C5: connection classification is total and fail-open.  For any
behaviour of the extraction and verification steps — including a thrown
exception in either — `authenticate` calls `next()` with no error; a
throw anywhere yields the guest assignment; and on the concrete
`extractToken`/`verifyToken` the assigned user is admin exactly for the
sentinel `admin-token`, user exactly for `user-token`, and the
read-only guest in every other case. -/
theorem c5_gatekeeper_fail_open :
    (∀ ext ver, (SocketAuth.authenticateWith ext ver).2 = true) ∧
    (∀ e ver, SocketAuth.authenticateWith (JsOutcome.thrown e) ver = (guestUser, true)) ∧
    (∀ ext e,
      SocketAuth.authenticateWith ext (fun _ => JsOutcome.thrown e) = (guestUser, true)) ∧
    (∀ s, (SocketAuth.authenticate s).1 =
      if SocketAuth.extractToken s = some "admin-token" then adminUser
      else if SocketAuth.extractToken s = some "user-token" then normalUser
      else guestUser) ∧
    guestUser = ⟨"guest", Role.guest, ["read"]⟩ ∧
    adminUser.role = Role.admin ∧ normalUser.role = Role.user := by
  refine ⟨?_, fun e ver => rfl, ?_, ?_, rfl, rfl, rfl⟩
  · intro ext ver
    unfold SocketAuth.authenticateWith
    split <;> rfl
  · intro ext e
    cases ext with
    | thrown f => rfl
    | value tok =>
      cases tok with
      | none => rfl
      | some t =>
        rcases h : truthyStr (some t) with _ | t2
        · simp [SocketAuth.authenticateWith, SocketAuth.tryBody, h]
        · simp [SocketAuth.authenticateWith, SocketAuth.tryBody, h]
  · intro s
    rcases h : SocketAuth.extractToken s with _ | t
    · simp [SocketAuth.authenticate, SocketAuth.authenticateWith, SocketAuth.tryBody, h,
        truthyStr]
    · by_cases ht : t = ""
      · subst ht
        simp [SocketAuth.authenticate, SocketAuth.authenticateWith, SocketAuth.tryBody, h,
          truthyStr]
      · by_cases ha : t = "admin-token"
        · subst ha
          simp [SocketAuth.authenticate, SocketAuth.authenticateWith, SocketAuth.tryBody, h,
            truthyStr, SocketAuth.verifyToken]
        · by_cases hu : t = "user-token"
          · subst hu
            simp [SocketAuth.authenticate, SocketAuth.authenticateWith, SocketAuth.tryBody,
              h, truthyStr, SocketAuth.verifyToken]
          · simp [SocketAuth.authenticate, SocketAuth.authenticateWith, SocketAuth.tryBody,
              h, truthyStr, SocketAuth.verifyToken, ht, ha, hu]

/-- C6 (amended): on OrderUpdated, `SocketEvents.handleOrderUpdated`
does send both to the global room and to the `order-updates` room, but
`SocketServer.broadcastOrderUpdated` — the implementation the
`WebSocketService` delegation path invokes — sends only the single
global `order:updated` message. -/
theorem c6_order_updated_targets (o : Order) (now : String) :
    SocketEvents.handleOrderUpdated o now =
      [ ⟨Target.all, "order:updated",
          { success := some true, data := some (.order o), timestamp := now }⟩,
        ⟨Target.room appConfig.rooms.orderUpdates, "order-updated",
          { success := some true, data := some (.order o), timestamp := now }⟩ ] ∧
    SocketServer.broadcastOrderUpdated o now =
      [ ⟨Target.all, appConfig.events.orderUpdated,
          { success := some true, data := some (.order o), timestamp := now }⟩ ] ∧
    WebSocketService.broadcastOrderUpdated true o now =
      SocketServer.broadcastOrderUpdated o now :=
  ⟨rfl, rfl, rfl⟩

/-- C6 counterexample: a concrete OrderUpdated broadcast through
`SocketServer.broadcastOrderUpdated` consists of exactly one message,
whose target is all connections — no message targets the
`order-updates` room. -/
theorem c6_no_update_room_message_counterexample :
    SocketServer.broadcastOrderUpdated sampleOrder "ts" =
      [ ⟨Target.all, "order:updated",
          { success := some true, data := some (.order sampleOrder), timestamp := "ts" }⟩ ] ∧
    (SocketServer.broadcastOrderUpdated sampleOrder "ts").all
      (fun e => !(e.target == Target.room "order-updates")) = true :=
  ⟨rfl, rfl⟩

/-- C7 (amended): on OrderDeleted, `SocketEvents.handleOrderDeleted`
sends to the global room and the `order-updates` room with the deleted
id as `data.id`, but `SocketServer.broadcastOrderDeleted` — the
implementation the `WebSocketService` delegation path invokes — sends
only the global message; neither implementation emits to any status
room. -/
theorem c7_order_deleted_targets (oid now : String) :
    SocketEvents.handleOrderDeleted oid now =
      [ ⟨Target.all, "order:deleted",
          { success := some true, data := some (.idRef oid), timestamp := now }⟩,
        ⟨Target.room appConfig.rooms.orderUpdates, "order-deleted",
          { success := some true, data := some (.idRef oid), timestamp := now }⟩ ] ∧
    SocketServer.broadcastOrderDeleted oid now =
      [ ⟨Target.all, appConfig.events.orderDeleted,
          { success := some true, data := some (.idRef oid), timestamp := now }⟩ ] ∧
    (∀ s : OrderStatus,
      (SocketEvents.handleOrderDeleted oid now ++
        SocketServer.broadcastOrderDeleted oid now).all
        (fun e => !(e.target == Target.room (statusRoom s))) = true) := by
  refine ⟨rfl, rfl, ?_⟩
  intro s
  cases s <;> rfl

/-- C7 counterexample: concretely, deleting order
`550e8400-e29b-41d4-a716-446655440001` through
`SocketServer.broadcastOrderDeleted` emits exactly one message (global),
so no message targets the `order-updates` room. -/
theorem c7_delete_only_global_counterexample :
    SocketServer.broadcastOrderDeleted "550e8400-e29b-41d4-a716-446655440001" "ts" =
      [ ⟨Target.all, "order:deleted",
          { success := some true,
            data := some (.idRef "550e8400-e29b-41d4-a716-446655440001"),
            timestamp := "ts" }⟩ ] ∧
    (SocketServer.broadcastOrderDeleted "550e8400-e29b-41d4-a716-446655440001" "ts").all
      (fun e => !(e.target == Target.room "order-updates")) = true :=
  ⟨rfl, rfl⟩

/-- C8 (amended): `SocketEvents.handleAdminBroadcast`,
`WebSocketService.broadcastAdminMessage`,
`SocketEvents.handleStatisticsUpdate` and
`WebSocketService.broadcastStatisticsUpdate` all target only the admin
room; but the wired `broadcast-message` listener
(`SocketServer.handleAdminEvents`) emits its `admin-message` to ALL
connections. -/
theorem c8_admin_room_scoping (m t now : String) (st : OrderStatistics) :
    SocketEvents.handleAdminBroadcast m t now =
      [ ⟨Target.room appConfig.rooms.adminUpdates, "admin-message",
          { message := some m, type := some t, timestamp := now }⟩ ] ∧
    WebSocketService.broadcastAdminMessage true m t now =
      [ ⟨Target.room "admin-updates", "admin-message",
          { message := some m, type := some t, timestamp := now }⟩ ] ∧
    SocketEvents.handleStatisticsUpdate st now =
      [ ⟨Target.room appConfig.rooms.adminUpdates, "statistics-update",
          { success := some true, data := some (.stats st), timestamp := now }⟩ ] ∧
    WebSocketService.broadcastStatisticsUpdate true st now =
      [ ⟨Target.room "admin-updates", "statistics-update",
          { success := some true, data := some (.stats st), timestamp := now }⟩ ] ∧
    SocketServer.onBroadcastMessage m t now =
      [ ⟨Target.all, "admin-message",
          { message := some m, type := some t, timestamp := now }⟩ ] :=
  ⟨rfl, rfl, rfl, rfl, rfl⟩

/-- C8 counterexample: a concrete admin `broadcast-message` request
makes the wired listener emit `admin-message` with target "all
connections", not the admin room. -/
theorem c8_broadcast_message_to_all_counterexample :
    SocketServer.onBroadcastMessage "Happy hour starts now" "info" "ts" =
      [ ⟨Target.all, "admin-message",
          { message := some "Happy hour starts now", type := some "info",
            timestamp := "ts" }⟩ ] ∧
    (SocketServer.onBroadcastMessage "Happy hour starts now" "info" "ts").all
      (fun e => !(e.target == Target.room "admin-updates")) = true :=
  ⟨rfl, rfl⟩

/-- C9 (amended): status transitions are unconstrained except from
Delivered.  For an order whose current status is not Delivered,
`updateStatus` (entity, and through repository/service on a matching
store) succeeds for EVERY target status; for an order already
Delivered, `canBeUpdated` is false and `updateStatus` throws
"Cannot update status of delivered order" for every target status. -/
theorem c9_transitions_guarded (o : Order) (b : OrderStatus) :
    (o.status ≠ OrderStatus.delivered →
      Order.updateStatus o b =
        Except.ok ⟨o.id, o.title, o.latitude, o.longitude, b, o.subItems⟩ ∧
      OrderService.updateOrderStatus [o] o.id b =
        Except.ok (some (⟨o.id, o.title, o.latitude, o.longitude, b, o.subItems⟩,
          [⟨o.id, o.title, o.latitude, o.longitude, b, o.subItems⟩]))) ∧
    (o.status = OrderStatus.delivered →
      Order.canBeUpdated o = false ∧
      Order.updateStatus o b = Except.error "Cannot update status of delivered order" ∧
      OrderService.updateOrderStatus [o] o.id b =
        Except.error "Cannot update status of delivered order") := by
  constructor
  · intro h
    have hup : Order.updateStatus o b =
        Except.ok ⟨o.id, o.title, o.latitude, o.longitude, b, o.subItems⟩ := by
      simp [Order.updateStatus, Order.canBeUpdated, h]
    refine ⟨hup, ?_⟩
    simp [OrderService.updateOrderStatus, OrderRepository.updateStatus, List.find?, hup]
  · intro h
    have hcan : Order.canBeUpdated o = false := by
      simp [Order.canBeUpdated, h]
    have hup : Order.updateStatus o b =
        Except.error "Cannot update status of delivered order" := by
      simp [Order.updateStatus, hcan]
    refine ⟨hcan, hup, ?_⟩
    simp [OrderService.updateOrderStatus, OrderRepository.updateStatus, List.find?, hup]

/-- C9 witness: a Preparing order accepts a move to Delivered; a
Delivered order rejects a move back to Received. -/
theorem c9_transitions_guarded_witness :
    Order.updateStatus sampleOrder OrderStatus.delivered =
      Except.ok ⟨"order-1", "Pepperoni Pizza Order", 40, -74, OrderStatus.delivered, []⟩ ∧
    Order.updateStatus deliveredOrder OrderStatus.received =
      Except.error "Cannot update status of delivered order" :=
  ⟨((c9_transitions_guarded sampleOrder OrderStatus.delivered).1 (by decide)).1,
   ((c9_transitions_guarded deliveredOrder OrderStatus.received).2 rfl).2.1⟩

/-- C9 counterexample: the spec's own example transition, Delivered →
Received, is rejected: on a store holding a Delivered order the
status-update path throws instead of succeeding. -/
theorem c9_delivered_to_received_rejected_counterexample :
    OrderService.updateOrderStatus [deliveredOrder] "order-2" OrderStatus.received =
      Except.error "Cannot update status of delivered order" ∧
    Order.canBeUpdated deliveredOrder = false := by
  constructor
  · simp [OrderService.updateOrderStatus, OrderRepository.updateStatus, List.find?,
      deliveredOrder, Order.updateStatus, Order.canBeUpdated]
  · rfl

/-- C10: every order produced by `OrderService.createOrder` has status
Received, and the result is identical to creating from the same request
with any client-supplied status stripped — the creation path never
reads the request's status. -/
theorem c10_created_orders_start_received (req : CreateOrderRequest) (newId : String) :
    (OrderService.createOrder req newId).status = OrderStatus.received ∧
    OrderService.createOrder req newId =
      OrderService.createOrder ⟨req.title, req.latitude, req.longitude, req.subItems,
        none⟩ newId :=
  ⟨rfl, rfl⟩
